import Mathlib

/-!
Portable temperature sensor firmware: link manager, session controller, alarm, commands.

A shallow embedding of the control logic of the ESP8266 firmware
(`src/NetworkManager.h` and `src/main.cpp`).

Conventions of the embedding:

* `unsigned long`, `unsigned int`, `long` and `int` are 32 bits wide on the target.
  Unsigned values are natural numbers reduced modulo `2 ^ 32` wherever the C++
  arithmetic can wrap; `millis()` is passed in as the argument `now`.
* `double` values are represented by the rational number they denote; the conversion
  `double → long` truncates toward zero.  Rounding of double arithmetic is not
  represented, so concrete evaluations below only use values that doubles hold exactly.
* Hardware effects (`WiFi.begin`, `mqttClient.connect`, `tone`, `noTone`) are recorded
  as counters or as lists of calls returned next to the new state.
* An Arduino `String` is a list of characters.
-/

namespace TempSensor

/-! ## 32-bit unsigned arithmetic -/

/-- Subtraction `a - b` on `unsigned long` operands (wraps modulo `2 ^ 32`). -/
def usub (a b : Nat) : Nat := (a % 2 ^ 32 + 2 ^ 32 - b % 2 ^ 32) % 2 ^ 32

/-- Conversion of a signed `long` to `unsigned long` / `unsigned int`. -/
def toULong (v : Int) : Nat := (v % 2 ^ 32).toNat

/-! ## NetworkManager.h -/

/-- The enum `ConnectionState`. -/
inductive ConnectionState where
  | CONN_DISCONNECTED
  | CONN_CONNECTING
  | CONN_CONNECTED
  | CONN_CONNECTION_FAILED
  deriving DecidableEq, Repr

open ConnectionState

/-- The private member `_reconnectInterval`: initialised to 30000 and never assigned. -/
def _reconnectInterval : Nat := 30000

/-- The private member `_connectionTimeout`: initialised to 10000 and never assigned. -/
def _connectionTimeout : Nat := 10000

/-- The mutable members of class `NetworkManager`, with their in-class initialisers.
`wifiBeginCalls` is not a member of the class: it counts the `WiFi.begin` calls issued. -/
structure NetworkManager where
  _lastAttemptTime : Nat := 0
  _connectionStartTime : Nat := 0
  _state : ConnectionState := CONN_DISCONNECTED
  _wasConnected : Bool := false
  wifiBeginCalls : Nat := 0
  deriving DecidableEq, Repr

namespace NetworkManager

/-- `NetworkManager::begin`. -/
def begin (s : NetworkManager) : NetworkManager :=
  { s with _state := CONN_DISCONNECTED }

/-- `NetworkManager::getState`. -/
def getState (s : NetworkManager) : ConnectionState := s._state

/-- `NetworkManager::startConnection`, run while `millis()` returns `now`. -/
def startConnection (now : Nat) (s : NetworkManager) : NetworkManager :=
  if s._state ≠ CONN_CONNECTING then
    { s with
      wifiBeginCalls := s.wifiBeginCalls + 1
      _state := CONN_CONNECTING
      _connectionStartTime := now }
  else s

/-- `NetworkManager::update`, run while `WiFi.status() == WL_CONNECTED` evaluates to
`linkUp` and `millis()` returns `now`. -/
def update (linkUp : Bool) (now : Nat) (s : NetworkManager) : NetworkManager :=
  if linkUp then
    let s1 := if s._state ≠ CONN_CONNECTED then { s with _wasConnected := false } else s
    { s1 with _state := CONN_CONNECTED }
  else
    let s1 :=
      if s._state = CONN_CONNECTED then
        { s with _state := CONN_DISCONNECTED, _wasConnected := true }
      else s
    let s2 :=
      if s1._state = CONN_CONNECTING then
        if usub now s1._connectionStartTime > _connectionTimeout then
          { s1 with _state := CONN_CONNECTION_FAILED, _lastAttemptTime := now }
        else s1
      else s1
    if (s2._state = CONN_DISCONNECTED ∨ s2._state = CONN_CONNECTION_FAILED) ∧
        usub now s2._lastAttemptTime > _reconnectInterval then
      startConnection now s2
    else s2

/-- `NetworkManager::justConnected`: the returned flag and the state left behind. -/
def justConnected (s : NetworkManager) : Bool × NetworkManager :=
  if s._state = CONN_CONNECTED ∧ s._wasConnected = false then
    (true, { s with _wasConnected := true })
  else (false, s)

end NetworkManager

open NetworkManager

/-- The state of the global `networkManager` right after construction. -/
def initialNetworkManager : NetworkManager := {}

/-- A sequence of `update()` calls; each tick carries the link status and `millis()`. -/
def runUpdates (ticks : List (Bool × Nat)) (s : NetworkManager) : NetworkManager :=
  ticks.foldl (fun acc t => update t.1 t.2 acc) s

/-- The part of one `loop()` pass that touches `networkManager`: `update()` followed by
`justConnected()`.  Returns the flag seen by `loop()` and the state left behind. -/
def loopTick (t : Bool × Nat) (s : NetworkManager) : Bool × NetworkManager :=
  justConnected (update t.1 t.2 s)

/-- A sequence of `loop()` passes. -/
def runTicks (ticks : List (Bool × Nat)) (s : NetworkManager) : NetworkManager :=
  ticks.foldl (fun acc t => (loopTick t acc).2) s

/-! ## main.cpp: broker session controller -/

/-- The function-local statics of `mqttReconnect`, with their initialisers. -/
structure MqttStatics where
  attempts : Int := 0
  lastAttemptTime : Nat := 0
  deriving DecidableEq, Repr

/-- The local constant `attemptInterval` of `mqttReconnect`. -/
def attemptInterval : Nat := 1000

/-- What one call of `mqttReconnect` produces: the returned flag, the number of
`mqttClient.connect` calls it issued (0 or 1), and the statics it leaves behind. -/
structure ReconnectResult where
  ret : Bool
  connectCalls : Nat
  statics : MqttStatics
  deriving DecidableEq, Repr

/-- `mqttReconnect(maxAttempts)`.  `linkUp` is the value of `networkManager.isConnected()`,
`sessionUp` the value of `mqttClient.connected()`, `connectOk` the value that
`mqttClient.connect(...)` returns if it is called, `now` the value of `millis()`. -/
def mqttReconnect (maxAttempts : Int) (linkUp sessionUp connectOk : Bool) (now : Nat)
    (s : MqttStatics) : ReconnectResult :=
  if !linkUp then
    { ret := false, connectCalls := 0, statics := s }
  else if !sessionUp then
    if usub now s.lastAttemptTime > attemptInterval then
      let s1 := { s with lastAttemptTime := now }
      if s1.attempts < maxAttempts then
        if connectOk then
          { ret := true, connectCalls := 1, statics := { s1 with attempts := 0 } }
        else
          { ret := false, connectCalls := 1, statics := { s1 with attempts := s1.attempts + 1 } }
      else
        { ret := false, connectCalls := 0, statics := { s1 with attempts := 0 } }
    else
      { ret := false, connectCalls := 0, statics := s }
  else
    { ret := true, connectCalls := 0, statics := { s with attempts := 0 } }

/-- Running totals over a sequence of `mqttReconnect` calls: the statics, the number of
`mqttClient.connect` calls issued, the number of calls that passed the interval gate
without issuing a connect, and whether any call returned `true`. -/
structure SessionRun where
  statics : MqttStatics := {}
  connects : Nat := 0
  refusals : Nat := 0
  anyTrue : Bool := false
  deriving DecidableEq, Repr

/-- Calls `mqttReconnect(maxAttempts)` at the given times, with the link up, the session
down and the broker refusing every connect. -/
def failingRun (maxAttempts : Int) : List Nat → SessionRun → SessionRun
  | [], acc => acc
  | now :: rest, acc =>
    let r := mqttReconnect maxAttempts true false false now acc.statics
    let gated : Bool := decide (usub now acc.statics.lastAttemptTime > attemptInterval)
    failingRun maxAttempts rest
      { statics := r.statics
        connects := acc.connects + r.connectCalls
        refusals := acc.refusals + (if gated && r.connectCalls == 0 then 1 else 0)
        anyTrue := acc.anyTrue || r.ret }

/-! ## main.cpp: configuration globals and the alarm controller -/

/-- A call made on the alarm transducer. -/
inductive BuzzerCall where
  | tone (freq : Int)
  | noTone
  deriving DecidableEq, Repr

/-- An Arduino `String`. -/
abbrev ArduinoString := List Char

/-- The configuration globals of `main.cpp`, with their initialisers. -/
structure Globals where
  mainDisplayUpdateInterval : Nat := 1000
  outputMode : ArduinoString := "normal".toList
  sendInterval : Nat := 1000
  thresholdTemp : ℚ := 80
  buzzerEnabled : Bool := true
  buzzerSilenceUntil : Nat := 0
  lastMqttDownload : Nat := 0
  otherUpdate : Bool := true
  deriving DecidableEq

/-- Conversion `double → long`: truncation toward zero. -/
def toLong (x : ℚ) : Int := if 0 ≤ x then ⌊x⌋ else ⌈x⌉

/-- The Arduino core function `map(x, in_min, in_max, out_min, out_max)` on `long`
operands: `(x - in_min) * (out_max - out_min) / (in_max - in_min) + out_min` with C
integer division.  `none` stands for the division by zero when `in_max = in_min`. -/
def map (x in_min in_max out_min out_max : Int) : Option Int :=
  if in_max - in_min = 0 then none
  else some (Int.tdiv ((x - in_min) * (out_max - out_min)) (in_max - in_min) + out_min)

/-- `playBuzzerAlarm(temperature, threshold)`: the call made on the transducer, or `none`
if the frequency computation divides by zero.  The function reads the global
`buzzerEnabled` and no other global. -/
def playBuzzerAlarm (g : Globals) (temperature threshold : ℚ) : Option BuzzerCall :=
  if g.buzzerEnabled = true ∧ temperature > threshold then
    (map (toLong temperature) (toLong (threshold + 5)) 100 1000 2000).map BuzzerCall.tone
  else some BuzzerCall.noTone

/-! ## main.cpp: command ingestion -/

/-- C `isspace` in the default locale: space, and the control characters 9 to 13. -/
def isSpace (c : Char) : Bool := c.toNat == 32 || (9 ≤ c.toNat && c.toNat ≤ 13)

/-- `String::trim`: drops leading and trailing white space. -/
def trim (s : ArduinoString) : ArduinoString :=
  ((s.dropWhile isSpace).reverse.dropWhile isSpace).reverse

/-- `String::startsWith`. -/
def startsWith (s pre : ArduinoString) : Bool := pre.isPrefixOf s

/-- `String::substring(left)`: the characters from index `left` on, empty when `left` is
past the end. -/
def substring (s : ArduinoString) (left : Nat) : ArduinoString := s.drop left

/-- Value of the longest run of decimal digits at the head of the list. -/
def digitsValue (acc : Nat) : List Char → Nat
  | [] => acc
  | c :: cs =>
    if 48 ≤ c.toNat ∧ c.toNat ≤ 57 then digitsValue (acc * 10 + (c.toNat - 48)) cs else acc

/-- Saturation of an integer to the range of a 32-bit `long`. -/
def clampLong (v : Int) : Int := max (-(2 ^ 31)) (min v (2 ^ 31 - 1))

/-- `String::toInt`, that is C `atol`: skips white space, reads an optional sign and the
decimal digits that follow, yields 0 when there are none, saturates at the `long` range. -/
def toInt (s : ArduinoString) : Int :=
  match s.dropWhile isSpace with
  | [] => 0
  | c :: cs =>
    if c.toNat = 45 then clampLong (-(digitsValue 0 cs : Int))
    else if c.toNat = 43 then clampLong (digitsValue 0 cs)
    else clampLong (digitsValue 0 (c :: cs))

/-- `serialHandler()`.  `input` is the line returned by `readStringUntil` when one of the
two serial ports has data and `none` when neither has; `toFloat` stands for
`String::toFloat`; `now` is `millis()`.  Returns the new globals and the transducer calls
issued, in order. -/
def serialHandler (toFloat : ArduinoString → ℚ) (now : Nat) (input : Option ArduinoString)
    (g : Globals) : Globals × List BuzzerCall :=
  match input with
  | none => (g, [])
  | some line =>
    let cmd := trim line
    let r : Globals × List BuzzerCall :=
      if cmd = "log".toList then
        ({ g with outputMode := "log".toList }, [])
      else if cmd = "normal".toList then
        ({ g with outputMode := "normal".toList }, [])
      else if startsWith cmd "interval".toList then
        let v : Nat := toULong (toInt (substring cmd 9))
        if v > 0 then ({ g with sendInterval := v }, []) else (g, [])
      else if startsWith cmd "oled".toList then
        let v : Nat := toULong (toInt (substring cmd 5))
        if v > 0 then ({ g with mainDisplayUpdateInterval := v }, []) else (g, [])
      else if startsWith cmd "setpoint".toList then
        ({ g with thresholdTemp := toFloat (substring cmd 9) }, [])
      else if startsWith cmd "buzzer".toList then
        let v : Nat := toULong (toInt (substring cmd 7))
        let enabled : Bool := v == 1
        ({ g with buzzerEnabled := enabled },
          if enabled then [] else [BuzzerCall.noTone])
      else if startsWith cmd "silence".toList then
        let duration : Nat := toULong (toInt (substring cmd 8))
        ({ g with buzzerSilenceUntil := (now + duration * 1000) % 2 ^ 32 }, [])
      else if cmd = "reset".toList then
        (g, [])
      else (g, [])
    ({ r.1 with otherUpdate := true }, r.2)

/-- `mqttCallback(topic, payload, length)`, with the payload already collected into the
string `message`.  Returns the new globals and the transducer calls issued, in order. -/
def mqttCallback (toFloat : ArduinoString → ℚ) (now : Nat) (topic message : ArduinoString)
    (g : Globals) : Globals × List BuzzerCall :=
  let g0 := { g with lastMqttDownload := now }
  let r : Globals × List BuzzerCall :=
    if topic = "sensor/interval".toList then
      let interval : Nat := toULong (toInt message)
      if interval > 0 then ({ g0 with sendInterval := interval }, []) else (g0, [])
    else if topic = "sensor/setpoint".toList then
      ({ g0 with thresholdTemp := toFloat message }, [])
    else if topic = "sensor/buzzer".toList then
      if message = "on".toList then
        ({ g0 with buzzerEnabled := true }, [])
      else if message = "off".toList then
        ({ g0 with buzzerEnabled := false }, [BuzzerCall.noTone])
      else if startsWith message "silence".toList then
        let seconds : Int := toInt (substring message 8)
        if seconds > 0 then
          ({ g0 with buzzerSilenceUntil := (now + toULong seconds * 1000) % 2 ^ 32 },
            [BuzzerCall.noTone])
        else (g0, [])
      else (g0, [])
    else (g0, [])
  ({ r.1 with otherUpdate := true }, r.2)

/-! ## Sequences of session-controller calls -/

/-- The circumstances of one `mqttReconnect` call: the value of
`networkManager.isConnected()`, the value of `mqttClient.connected()`, the value that
`mqttClient.connect(...)` returns if it is called, and the value of `millis()`. -/
structure ReconnectCall where
  linkUp : Bool
  sessionUp : Bool
  connectOk : Bool
  now : Nat
  deriving DecidableEq, Repr

/-- The times, in order, at which a sequence of `mqttReconnect(maxAttempts)` calls issues
`mqttClient.connect`. -/
def attemptTimes (maxAttempts : Int) : List ReconnectCall → MqttStatics → List Nat
  | [], _ => []
  | c :: rest, s =>
    let r := mqttReconnect maxAttempts c.linkUp c.sessionUp c.connectOk c.now s
    if r.connectCalls = 1 then c.now :: attemptTimes maxAttempts rest r.statics
    else attemptTimes maxAttempts rest r.statics

/-! ## Predicates used in the proofs -/

/-- Between two `loop()` passes a cached `CONN_CONNECTED` has had its edge consumed:
`_wasConnected` is set whenever `_state` is `CONN_CONNECTED`. -/
def edgeConsumed (s : NetworkManager) : Prop :=
  s._state = CONN_CONNECTED → s._wasConnected = true

/-- The running totals at the start of a sequence of `mqttReconnect` calls: attempt counter
0, last-attempt timestamp `t0`, nothing issued yet. -/
def freshWindow (t0 : Nat) : SessionRun :=
  { statics := { attempts := 0, lastAttemptTime := t0 } }

/-- Bookkeeping along a run of failing calls with budget `N`: the connects issued so far
are `N` per refusal plus the current counter, the counter stays within `0 .. N`, and no
call has returned `true`. -/
def windowInvariant (N : Int) (a : SessionRun) : Prop :=
  (a.connects : Int) = N * a.refusals + a.statics.attempts ∧
    0 ≤ a.statics.attempts ∧ a.statics.attempts ≤ N ∧ a.anyTrue = false

end TempSensor

namespace TempSensor

open NetworkManager ConnectionState

/-! ## C1: the alarm controller and the mute window -/

/-- Claim C1, evaluated on the code: the serial command `silence 60` received at time 0
sets `buzzerSilenceUntil` to 60000, yet `playBuzzerAlarm(85, 80)` called afterwards (for
instance at time 1000, inside the mute window) with the buzzer enabled still starts a tone
at 1000 Hz: the function never reads `buzzerSilenceUntil`. -/
theorem C1_alarm_ignores_mute_window :
    (serialHandler (fun _ => 0) 0 (some "silence 60".toList) {}).1
        = { buzzerSilenceUntil := 60000 } ∧
      (1000 : Nat) < 60000 ∧
      playBuzzerAlarm { buzzerSilenceUntil := 60000 } 85 80 = some (BuzzerCall.tone 1000) := by
  refine ⟨by decide, by decide, ?_⟩
  norm_num [playBuzzerAlarm, toLong, map]

/-! ## C2: edges of the link state machine -/

/-- Every change of `_state` made by one `update()` from an arbitrary state is one of
eight edges; an edge into `CONN_CONNECTED` needs the link up, every other edge needs it
down. -/
theorem update_edges (linkUp : Bool) (now : Nat) (s : NetworkManager) :
    (update linkUp now s)._state = s._state ∨
    (linkUp = true ∧ s._state = CONN_DISCONNECTED ∧
      (update linkUp now s)._state = CONN_CONNECTED) ∨
    (linkUp = true ∧ s._state = CONN_CONNECTING ∧
      (update linkUp now s)._state = CONN_CONNECTED) ∨
    (linkUp = true ∧ s._state = CONN_CONNECTION_FAILED ∧
      (update linkUp now s)._state = CONN_CONNECTED) ∨
    (linkUp = false ∧ s._state = CONN_CONNECTED ∧
      (update linkUp now s)._state = CONN_DISCONNECTED) ∨
    (linkUp = false ∧ s._state = CONN_CONNECTED ∧
      (update linkUp now s)._state = CONN_CONNECTING) ∨
    (linkUp = false ∧ s._state = CONN_CONNECTING ∧
      (update linkUp now s)._state = CONN_CONNECTION_FAILED) ∨
    (linkUp = false ∧ s._state = CONN_DISCONNECTED ∧
      (update linkUp now s)._state = CONN_CONNECTING) ∨
    (linkUp = false ∧ s._state = CONN_CONNECTION_FAILED ∧
      (update linkUp now s)._state = CONN_CONNECTING) := by
  obtain ⟨la, cs, st, wc, n⟩ := s
  cases linkUp <;> cases st <;> simp [update, startConnection] <;> split_ifs <;> simp_all

/-- Claim C2 as stated fails: starting from the initial state, one `update()` with the
link up moves `CONN_DISCONNECTED` straight to `CONN_CONNECTED`; after that, one `update()`
with the link down at time 40000 moves `CONN_CONNECTED` straight to `CONN_CONNECTING`; and
after a timed-out attempt one `update()` with the link up moves `CONN_CONNECTION_FAILED`
to `CONN_CONNECTED`.  None of these three edges is among the five listed. -/
theorem C2_unlisted_edges_occur :
    (initialNetworkManager._state = CONN_DISCONNECTED ∧
      (update true 0 initialNetworkManager)._state = CONN_CONNECTED) ∧
    ((runUpdates [(true, 0)] initialNetworkManager)._state = CONN_CONNECTED ∧
      (update false 40000 (runUpdates [(true, 0)] initialNetworkManager))._state
        = CONN_CONNECTING) ∧
    ((runUpdates [(false, 30001), (false, 40002)] initialNetworkManager)._state
        = CONN_CONNECTION_FAILED ∧
      (update true 40003
        (runUpdates [(false, 30001), (false, 40002)] initialNetworkManager))._state
        = CONN_CONNECTED) := by
  decide

/-- Claim C2, amended: after any sequence of `update()` ticks from the initial state, one
more `update()` either keeps the cached state or takes one of eight edges: the five listed
ones (Disconnected→Connecting, ConnectionFailed→Connecting, Connecting→Connected,
Connecting→ConnectionFailed, Connected→Disconnected) or Disconnected→Connected,
ConnectionFailed→Connected (link reported up) or Connected→Connecting (link dropped and
the reconnect interval already elapsed). -/
theorem C2_update_edges (ticks : List (Bool × Nat)) (linkUp : Bool) (now : Nat) :
    (update linkUp now (runUpdates ticks initialNetworkManager))._state
        = (runUpdates ticks initialNetworkManager)._state ∨
    (linkUp = true ∧ (runUpdates ticks initialNetworkManager)._state = CONN_DISCONNECTED ∧
      (update linkUp now (runUpdates ticks initialNetworkManager))._state = CONN_CONNECTED) ∨
    (linkUp = true ∧ (runUpdates ticks initialNetworkManager)._state = CONN_CONNECTING ∧
      (update linkUp now (runUpdates ticks initialNetworkManager))._state = CONN_CONNECTED) ∨
    (linkUp = true ∧ (runUpdates ticks initialNetworkManager)._state = CONN_CONNECTION_FAILED ∧
      (update linkUp now (runUpdates ticks initialNetworkManager))._state = CONN_CONNECTED) ∨
    (linkUp = false ∧ (runUpdates ticks initialNetworkManager)._state = CONN_CONNECTED ∧
      (update linkUp now (runUpdates ticks initialNetworkManager))._state = CONN_DISCONNECTED) ∨
    (linkUp = false ∧ (runUpdates ticks initialNetworkManager)._state = CONN_CONNECTED ∧
      (update linkUp now (runUpdates ticks initialNetworkManager))._state = CONN_CONNECTING) ∨
    (linkUp = false ∧ (runUpdates ticks initialNetworkManager)._state = CONN_CONNECTING ∧
      (update linkUp now (runUpdates ticks initialNetworkManager))._state
        = CONN_CONNECTION_FAILED) ∨
    (linkUp = false ∧ (runUpdates ticks initialNetworkManager)._state = CONN_DISCONNECTED ∧
      (update linkUp now (runUpdates ticks initialNetworkManager))._state = CONN_CONNECTING) ∨
    (linkUp = false ∧ (runUpdates ticks initialNetworkManager)._state = CONN_CONNECTION_FAILED ∧
      (update linkUp now (runUpdates ticks initialNetworkManager))._state = CONN_CONNECTING) :=
  update_edges linkUp now (runUpdates ticks initialNetworkManager)

/-! ## C3: `justConnected()` is edge-triggered -/

/-- After one `loop()` pass the cached state is `CONN_CONNECTED` exactly when the link
was reported up on that pass. -/
theorem loopTick_state (linkUp : Bool) (now : Nat) (s : NetworkManager) :
    (loopTick (linkUp, now) s).2._state = CONN_CONNECTED ↔ linkUp = true := by
  obtain ⟨la, cs, st, wc, n⟩ := s
  cases linkUp <;> cases st <;> cases wc <;>
    simp [loopTick, justConnected, update, startConnection] <;> split_ifs <;> simp_all

/-- One `loop()` pass always leaves the edge consumed. -/
theorem loopTick_edgeConsumed (t : Bool × Nat) (s : NetworkManager) :
    edgeConsumed (loopTick t s).2 := by
  obtain ⟨linkUp, now⟩ := t
  obtain ⟨la, cs, st, wc, n⟩ := s
  cases linkUp <;> cases st <;> cases wc <;>
    simp [edgeConsumed, loopTick, justConnected, update, startConnection] <;>
    split_ifs <;> simp_all

/-- The edge stays consumed along any sequence of `loop()` passes. -/
theorem runTicks_edgeConsumed (ticks : List (Bool × Nat)) :
    ∀ s : NetworkManager, edgeConsumed s → edgeConsumed (runTicks ticks s) := by
  induction ticks with
  | nil => intro s hs; simpa [runTicks] using hs
  | cons t rest ih =>
    intro s _
    have h := ih (loopTick t s).2 (loopTick_edgeConsumed t s)
    simpa [runTicks] using h

/-- From a state with the edge consumed, the flag returned in a `loop()` pass is true
exactly when the link is up and the cached state was not `CONN_CONNECTED`. -/
theorem loopTick_flag (linkUp : Bool) (now : Nat) (s : NetworkManager) (hs : edgeConsumed s) :
    (loopTick (linkUp, now) s).1 = true ↔ (linkUp = true ∧ s._state ≠ CONN_CONNECTED) := by
  obtain ⟨la, cs, st, wc, n⟩ := s
  cases linkUp <;> cases st <;> cases wc <;>
    simp_all [edgeConsumed, loopTick, justConnected, update, startConnection] <;>
    split_ifs <;> simp_all

/-- Claim C3: after any sequence of `loop()` passes from the initial state, in the next
pass `justConnected()` returns true if and only if the link is reported up on that pass
and the cached state before its `update()` was not `CONN_CONNECTED`; and the pass leaves
the cached state `CONN_CONNECTED` exactly when the link was reported up.  Hence the flag
is raised on the first pass of every stretch of connectivity and on no other pass. -/
theorem C3_justConnected_rising_edge (ticks : List (Bool × Nat)) (linkUp : Bool) (now : Nat) :
    ((loopTick (linkUp, now) (runTicks ticks initialNetworkManager)).1 = true ↔
      (linkUp = true ∧ (runTicks ticks initialNetworkManager)._state ≠ CONN_CONNECTED)) ∧
    ((loopTick (linkUp, now) (runTicks ticks initialNetworkManager)).2._state = CONN_CONNECTED ↔
      linkUp = true) := by
  refine ⟨loopTick_flag linkUp now _ (runTicks_edgeConsumed ticks _ ?_),
    loopTick_state linkUp now _⟩
  simp [edgeConsumed, initialNetworkManager]

/-! ## C4: bounded session attempts -/

/-- One step of `failingRun`, unfolded. -/
theorem failingRun_cons (N : Int) (now : Nat) (rest : List Nat) (acc : SessionRun) :
    failingRun N (now :: rest) acc =
      failingRun N rest
        { statics := (mqttReconnect N true false false now acc.statics).statics
          connects := acc.connects + (mqttReconnect N true false false now acc.statics).connectCalls
          refusals := acc.refusals +
            (if decide (usub now acc.statics.lastAttemptTime > attemptInterval) &&
                (mqttReconnect N true false false now acc.statics).connectCalls == 0
              then 1 else 0)
          anyTrue := acc.anyTrue || (mqttReconnect N true false false now acc.statics).ret } :=
  rfl

/-- One failing call preserves the bookkeeping. -/
theorem windowInvariant_step (N : Int) (now : Nat) (acc : SessionRun)
    (h : windowInvariant N acc) :
    windowInvariant N
      { statics := (mqttReconnect N true false false now acc.statics).statics
        connects := acc.connects + (mqttReconnect N true false false now acc.statics).connectCalls
        refusals := acc.refusals +
          (if decide (usub now acc.statics.lastAttemptTime > attemptInterval) &&
              (mqttReconnect N true false false now acc.statics).connectCalls == 0
            then 1 else 0)
        anyTrue := acc.anyTrue || (mqttReconnect N true false false now acc.statics).ret } := by
  obtain ⟨h1, h2, h3, h4⟩ := h
  unfold windowInvariant mqttReconnect
  by_cases hg : usub now acc.statics.lastAttemptTime > attemptInterval
  · by_cases ha : acc.statics.attempts < N
    · simp [hg, ha, h4]
      refine ⟨by rw [h1]; ring, by omega, by omega⟩
    · have hN : acc.statics.attempts = N := le_antisymm h3 (not_lt.mp ha)
      simp [hg, ha, h4]
      refine ⟨by rw [h1, hN]; ring, by omega⟩
  · simp [hg, h4]
    exact ⟨h1, h2, h3⟩

/-- The bookkeeping holds along every run of failing calls. -/
theorem failingRun_windowInvariant (N : Int) (times : List Nat) :
    ∀ acc : SessionRun, windowInvariant N acc → windowInvariant N (failingRun N times acc) := by
  induction times with
  | nil => intro acc h; simpa [failingRun] using h
  | cons now rest ih =>
    intro acc h
    rw [failingRun_cons]
    exact ih _ (windowInvariant_step N now acc h)

/-- Claim C4 as stated fails: with `maxAttempts = 1`, the counter at 0 and every connect
refused, the three calls at times 2000, 4000 and 6000 issue two connect attempts (the
second call resets the counter, the third attempts again), more than `N = 1`. -/
theorem C4_budget_exceeded_across_resets :
    (failingRun 1 [2000, 4000, 6000] (freshWindow 0)).connects = 2 ∧
      ¬ ((failingRun 1 [2000, 4000, 6000] (freshWindow 0)).connects ≤ 1) := by
  decide

/-- Claim C4, amended: for every `N ≥ 1` and every sequence of `mqttReconnect(N)` calls made
with the link up, the session down and every connect refused, starting with the counter
at 0: the number of connect attempts issued equals `N` times the number of refusals (gated
calls that issued no connect and reset the counter) plus the current counter, so at most
`N` attempts are issued between two resets; the counter stays within `0 .. N`; every call
returns false; and a gated call made with the counter at `N` issues no connect attempt,
returns false and resets the counter to 0. -/
theorem C4_bounded_attempts_per_window (N : Int) (hN : 1 ≤ N) (times : List Nat) (t0 : Nat) :
    ((failingRun N times (freshWindow t0)).connects : Int)
        = N * (failingRun N times (freshWindow t0)).refusals
          + (failingRun N times (freshWindow t0)).statics.attempts ∧
      0 ≤ (failingRun N times (freshWindow t0)).statics.attempts ∧
      (failingRun N times (freshWindow t0)).statics.attempts ≤ N ∧
      (failingRun N times (freshWindow t0)).anyTrue = false ∧
      (∀ last now : Nat, usub now last > attemptInterval →
        mqttReconnect N true false false now { attempts := N, lastAttemptTime := last }
          = { ret := false, connectCalls := 0,
              statics := { attempts := 0, lastAttemptTime := now } }) := by
  have h := failingRun_windowInvariant N times (freshWindow t0)
    (by simp [windowInvariant, freshWindow]; omega)
  obtain ⟨h1, h2, h3, h4⟩ := h
  refine ⟨h1, h2, h3, h4, ?_⟩
  intro last now hg
  simp [mqttReconnect, hg]

/-- Claim C4, the scenario `N = 3`: three failing calls at times 2000, 4000, 6000 issue
three connect attempts and leave the counter at 3, and the next gated call, at time 8000,
issues no fourth attempt and returns false. -/
theorem C4_three_failures_no_fourth :
    (1 : Int) ≤ 3 ∧
      (failingRun 3 [2000, 4000, 6000] (freshWindow 0)).connects = 3 ∧
      (failingRun 3 [2000, 4000, 6000] (freshWindow 0)).statics
        = { attempts := 3, lastAttemptTime := 6000 } ∧
      usub 8000 6000 > attemptInterval ∧
      mqttReconnect 3 true false false 8000 { attempts := 3, lastAttemptTime := 6000 }
        = { ret := false, connectCalls := 0,
            statics := { attempts := 0, lastAttemptTime := 8000 } } :=
  ⟨by decide, by decide, by decide, by decide,
    (C4_bounded_attempts_per_window 3 (by decide) [2000, 4000, 6000] 0).2.2.2.2 6000 8000
      (by decide)⟩

/-! ## C5: the interval command -/

/-- Claim C5, evaluated on the code: `interval 500` sets `sendInterval` to 500 and a
following `interval 0` leaves it at 500, but `interval -5` is not ignored: `toInt` reads
-5, the conversion to `unsigned long` gives 4294967291, the test `v > 0` passes and
`sendInterval` becomes 4294967291.  The broker topic `sensor/interval` with payload `-5`
does the same. -/
theorem C5_negative_interval_accepted :
    (serialHandler (fun _ => 0) 0 (some "interval 500".toList) {}).1.sendInterval = 500 ∧
      (serialHandler (fun _ => 0) 0 (some "interval 0".toList)
        { sendInterval := 500 }).1.sendInterval = 500 ∧
      toInt (substring (trim "interval -5".toList) 9) = -5 ∧
      (serialHandler (fun _ => 0) 0 (some "interval -5".toList)
        { sendInterval := 1000 }).1.sendInterval = 4294967291 ∧
      (mqttCallback (fun _ => 0) 0 "sensor/interval".toList "-5".toList
        { sendInterval := 1000 }).1.sendInterval = 4294967291 := by
  decide

/-! ## C6: the session controller with the link down -/

/-- Claim C6: with the link down, `mqttReconnect(maxAttempts)` returns false, issues no
connect attempt and leaves the attempt counter and the last-attempt timestamp unchanged,
whatever `maxAttempts`, the time, the session status and the statics are. -/
theorem C6_link_down_no_attempt (maxAttempts : Int) (sessionUp connectOk : Bool) (now : Nat)
    (s : MqttStatics) :
    mqttReconnect maxAttempts false sessionUp connectOk now s
      = { ret := false, connectCalls := 0, statics := s } := by
  simp [mqttReconnect]

/-! ## C7 and C8: the alarm frequency -/

/-- Truncation toward zero is monotone. -/
theorem toLong_mono {x y : ℚ} (h : x ≤ y) : toLong x ≤ toLong y := by
  unfold toLong
  split_ifs with hx hy hy
  · exact Int.floor_mono h
  · exact absurd (le_trans hx h) hy
  · have h1 : ⌈x⌉ ≤ 0 := Int.ceil_le.mpr (by push_cast; linarith)
    have h2 : 0 ≤ ⌊y⌋ := Int.floor_nonneg.mpr hy
    omega
  · exact Int.ceil_mono h

/-- Truncation leaves whole numbers alone. -/
theorem toLong_intCast (n : Int) : toLong (n : ℚ) = n := by
  unfold toLong
  split_ifs <;> simp

/-- A value below a positive whole number truncates below it. -/
theorem toLong_lt_of_lt {x : ℚ} {n : Int} (hn : 0 < n) (h : x < n) : toLong x < n := by
  unfold toLong
  split_ifs with hx
  · exact Int.floor_lt.mpr h
  · have h1 : ⌈x⌉ ≤ 0 := Int.ceil_le.mpr (by push_cast; linarith)
    omega

/-- On the mapped domain the C division of `map` is a floor division. -/
theorem map_eq_ediv {x m : Int} (hx : m ≤ x) (hm : m < 100) :
    map x m 100 1000 2000 = some ((x - m) * 1000 / (100 - m) + 1000) := by
  unfold map
  rw [if_neg (by omega)]
  have h : Int.tdiv ((x - m) * (2000 - 1000)) (100 - m) = (x - m) * 1000 / (100 - m) := by
    rw [Int.tdiv_eq_ediv (by norm_num; omega) (by omega)]
    norm_num
  rw [h]

/-- Adding at least the divisor to the dividend raises the quotient. -/
theorem quot_lt_quot {a b c : Int} (hc : 0 < c) (h : a + c ≤ b) : a / c < b / c := by
  have h1 : a / c + 1 ≤ b / c := by
    rw [Int.le_ediv_iff_mul_le hc]
    have := Int.ediv_mul_le a (Int.ne_of_gt hc)
    nlinarith
  omega

/-- Claim C7 as stated fails: with threshold 80.0, reading 85.0, the buzzer enabled and
mute-until 0, no frequency `f` with `1000 < f < 2000` is passed to `tone`. -/
theorem C7_scenario_frequency_not_above_1000 :
    ¬ ∃ f : Int,
      playBuzzerAlarm { thresholdTemp := 80, buzzerEnabled := true, buzzerSilenceUntil := 0 } 85 80
        = some (BuzzerCall.tone f) ∧ 1000 < f ∧ f < 2000 := by
  have h : playBuzzerAlarm { thresholdTemp := 80, buzzerEnabled := true, buzzerSilenceUntil := 0 }
      85 80 = some (BuzzerCall.tone 1000) := by
    norm_num [playBuzzerAlarm, toLong, map]
  rintro ⟨f, hf, h1, -⟩
  rw [h] at hf
  injection hf with hf
  injection hf with hf
  omega

/-- Claim C7, amended: with threshold 80.0, reading 85.0, the buzzer enabled and mute-until
0, `playBuzzerAlarm` calls `tone` with the frequency 1000 Hz, the value of the integer
linear map of the truncated reading 85 from (85 … 100) onto (1000 … 2000): the lower edge
of the range, so `1000 ≤ f < 2000`. -/
theorem C7_scenario_frequency :
    playBuzzerAlarm { thresholdTemp := 80, buzzerEnabled := true, buzzerSilenceUntil := 0 } 85 80
        = some (BuzzerCall.tone 1000) ∧
      map (toLong 85) (toLong (80 + 5)) 100 1000 2000 = some 1000 := by
  constructor <;> norm_num [playBuzzerAlarm, toLong, map]

/-- Claim C8 as stated fails: with threshold 80 and the buzzer enabled, the temperatures
90.25 < 90.5 both lie in the mapped domain [85, 100] and both get the frequency 1333 Hz,
because the reading is truncated to whole degrees before it is mapped. -/
theorem C8_equal_frequencies :
    (80 : ℚ) < 95 ∧ (80 : ℚ) + 5 ≤ 90.25 ∧ (90.25 : ℚ) < 90.5 ∧ (90.5 : ℚ) ≤ 100 ∧
      playBuzzerAlarm {} 90.25 80 = some (BuzzerCall.tone 1333) ∧
      playBuzzerAlarm {} 90.5 80 = some (BuzzerCall.tone 1333) := by
  refine ⟨by norm_num, by norm_num, by norm_num, by norm_num, ?_, ?_⟩ <;>
    norm_num [playBuzzerAlarm, toLong, map] <;> decide

/-- Claim C8, amended: for every threshold with `-905 ≤ threshold < 95` and every two
temperatures `t1 < t2` in the mapped domain `[threshold + 5, 100]`, with the buzzer
enabled, `playBuzzerAlarm` passes frequencies `f1` for `t1` and `f2` for `t2` with
`f1 ≤ f2`, and `f1 < f2` exactly when the truncated readings differ. -/
theorem C8_frequency_monotone (g : Globals) (threshold t1 t2 : ℚ)
    (hen : g.buzzerEnabled = true) (hlo : -905 ≤ threshold) (hth : threshold < 95)
    (h1 : threshold + 5 ≤ t1) (h12 : t1 < t2) (h2 : t2 ≤ 100) :
    ∃ f1 f2 : Int,
      playBuzzerAlarm g t1 threshold = some (BuzzerCall.tone f1) ∧
      playBuzzerAlarm g t2 threshold = some (BuzzerCall.tone f2) ∧
      f1 ≤ f2 ∧ (f1 < f2 ↔ toLong t1 < toLong t2) := by
  have hm1 : toLong (threshold + 5) ≤ toLong t1 := toLong_mono h1
  have hx : toLong t1 ≤ toLong t2 := toLong_mono (le_of_lt h12)
  have hx2 : toLong t2 ≤ 100 := by
    have := toLong_mono h2
    rwa [show (100 : ℚ) = ((100 : Int) : ℚ) by norm_num, toLong_intCast] at this
  have hm99 : toLong (threshold + 5) < 100 :=
    toLong_lt_of_lt (by norm_num) (by push_cast; linarith)
  have hmlo : -900 ≤ toLong (threshold + 5) := by
    have := toLong_mono (show ((-900 : Int) : ℚ) ≤ threshold + 5 by push_cast; linarith)
    rwa [toLong_intCast] at this
  have hc1 : g.buzzerEnabled = true ∧ t1 > threshold := ⟨hen, by linarith⟩
  have hc2 : g.buzzerEnabled = true ∧ t2 > threshold := ⟨hen, by linarith⟩
  refine ⟨(toLong t1 - toLong (threshold + 5)) * 1000 / (100 - toLong (threshold + 5)) + 1000,
    (toLong t2 - toLong (threshold + 5)) * 1000 / (100 - toLong (threshold + 5)) + 1000,
    ?_, ?_, ?_, ?_⟩
  · unfold playBuzzerAlarm
    rw [if_pos hc1, map_eq_ediv hm1 hm99]; rfl
  · unfold playBuzzerAlarm
    rw [if_pos hc2, map_eq_ediv (le_trans hm1 hx) hm99]; rfl
  · have := Int.ediv_le_ediv (show (0 : Int) < 100 - toLong (threshold + 5) by omega)
      (show (toLong t1 - toLong (threshold + 5)) * 1000
        ≤ (toLong t2 - toLong (threshold + 5)) * 1000 by omega)
    omega
  · constructor
    · intro hlt
      by_contra hnot
      have heq : toLong t1 = toLong t2 := by omega
      rw [heq] at hlt
      omega
    · intro hlt
      have := quot_lt_quot (show (0 : Int) < 100 - toLong (threshold + 5) by omega)
        (show (toLong t1 - toLong (threshold + 5)) * 1000 + (100 - toLong (threshold + 5))
          ≤ (toLong t2 - toLong (threshold + 5)) * 1000 by omega)
      omega

/-- Claim C8, an instance: threshold 80 with readings 90 and 95. -/
theorem C8_frequency_monotone_witness :
    ({} : Globals).buzzerEnabled = true ∧ (-905 : ℚ) ≤ 80 ∧ (80 : ℚ) < 95 ∧
      (80 : ℚ) + 5 ≤ 90 ∧ (90 : ℚ) < 95 ∧ (95 : ℚ) ≤ 100 ∧
      ∃ f1 f2 : Int,
        playBuzzerAlarm {} 90 80 = some (BuzzerCall.tone f1) ∧
        playBuzzerAlarm {} 95 80 = some (BuzzerCall.tone f2) ∧
        f1 ≤ f2 ∧ (f1 < f2 ↔ toLong 90 < toLong 95) :=
  ⟨rfl, by norm_num, by norm_num, by norm_num, by norm_num, by norm_num,
    C8_frequency_monotone {} 80 90 95 rfl (by norm_num) (by norm_num) (by norm_num)
      (by norm_num) (by norm_num)⟩

/-! ## C9: the silence command -/

/-- A string that starts with `pre` is `pre` followed by the rest. -/
theorem startsWith_split (pre : ArduinoString) :
    ∀ s : ArduinoString, startsWith s pre = true → ∃ rest, s = pre ++ rest := by
  induction pre with
  | nil => intro s _; exact ⟨s, rfl⟩
  | cons p ps ih =>
    intro s h
    cases s with
    | nil => simp [startsWith, List.isPrefixOf] at h
    | cons c cs =>
      simp only [startsWith, List.isPrefixOf, Bool.and_eq_true, beq_iff_eq] at h
      obtain ⟨rest, hrest⟩ := ih cs h.2
      exact ⟨rest, by rw [h.1, hrest]; rfl⟩

/-- A non-negative `long` converts to `unsigned long` unchanged. -/
theorem toULong_of_nonneg {s : Int} (h0 : 0 ≤ s) (h1 : s < 2 ^ 32) : toULong s = s.toNat := by
  unfold toULong
  rw [Int.emod_eq_of_lt h0 h1]

/-- A saturated value fits in 32 bits. -/
theorem clampLong_lt (v : Int) : clampLong v < 2 ^ 32 := by
  unfold clampLong
  omega

/-- What `toInt` reads fits in 32 bits. -/
theorem toInt_lt (s : ArduinoString) : toInt s < 2 ^ 32 := by
  unfold toInt
  split
  · norm_num
  · split_ifs <;> exact clampLong_lt _

/-- Claim C9 as stated fails: the broker message `silence 0` on `sensor/buzzer` at time
5000 leaves `buzzerSilenceUntil` at its previous value 9999 (not 5000) and issues no
transducer call, because the handler only acts when `seconds > 0`; and the serial line
`silence 5` issues no transducer call at all. -/
theorem C9_broker_silence_zero_ignored :
    toInt (substring "silence 0".toList 8) = 0 ∧
      mqttCallback (fun _ => 0) 5000 "sensor/buzzer".toList "silence 0".toList
          { buzzerSilenceUntil := 9999 }
        = ({ buzzerSilenceUntil := 9999, lastMqttDownload := 5000 }, []) ∧
      (serialHandler (fun _ => 0) 5000 (some "silence 5".toList) {}).2 = [] := by
  decide

/-- Claim C9, amended: let `payload` start with `silence` and let `s ≥ 0` be the number
that `toInt` reads from its argument (the text from index 8 on).  A serial line that
trims to `payload` sets `buzzerSilenceUntil` to `(now + 1000·s) mod 2^32` and changes no
other configuration field.  A broker message `payload` on `sensor/buzzer` with `s > 0`
sets `buzzerSilenceUntil` to the same value and issues one `noTone`; with `s = 0` it
leaves `buzzerSilenceUntil` unchanged and issues no transducer call. -/
theorem C9_silence_sets_mute_until (toFloat : ArduinoString → ℚ) (now : Nat)
    (line payload : ArduinoString) (s : Int) (g : Globals)
    (hline : trim line = payload) (hcmd : startsWith payload "silence".toList = true)
    (harg : toInt (substring payload 8) = s) (hs : 0 ≤ s) :
    (serialHandler toFloat now (some line) g).1
        = { g with buzzerSilenceUntil := (now + s.toNat * 1000) % 2 ^ 32, otherUpdate := true } ∧
      mqttCallback toFloat now "sensor/buzzer".toList payload g
        = if 0 < s then
            ({ g with
                lastMqttDownload := now
                buzzerSilenceUntil := (now + s.toNat * 1000) % 2 ^ 32
                otherUpdate := true }, [BuzzerCall.noTone])
          else ({ g with lastMqttDownload := now, otherUpdate := true }, []) := by
  have hlt : s < 2 ^ 32 := harg ▸ toInt_lt _
  have hu : toULong s = s.toNat := toULong_of_nonneg hs hlt
  obtain ⟨rest, hrest⟩ := startsWith_split "silence".toList payload hcmd
  constructor
  · simp only [serialHandler, hline, harg, hu]
    subst hrest
    simp [startsWith, List.isPrefixOf]
  · simp only [mqttCallback, harg, hu]
    subst hrest
    by_cases h0 : 0 < s
    · simp [startsWith, List.isPrefixOf, h0]
    · simp [startsWith, List.isPrefixOf, h0]

/-- Claim C9, an instance: `silence 5` at time 7 on both channels. -/
theorem C9_silence_witness :
    trim "silence 5".toList = "silence 5".toList ∧
      startsWith "silence 5".toList "silence".toList = true ∧
      toInt (substring "silence 5".toList 8) = 5 ∧ (0 : Int) ≤ 5 ∧
      (serialHandler (fun _ => 0) 7 (some "silence 5".toList) {}).1
        = { buzzerSilenceUntil := (7 + (5 : Int).toNat * 1000) % 2 ^ 32, otherUpdate := true } ∧
      (serialHandler (fun _ => 0) 7 (some "silence 5".toList) {}).1.buzzerSilenceUntil = 5007 ∧
      mqttCallback (fun _ => 0) 7 "sensor/buzzer".toList "silence 5".toList {}
        = ({ buzzerSilenceUntil := 5007, lastMqttDownload := 7 }, [BuzzerCall.noTone]) :=
  ⟨by decide, by decide, by decide, by decide,
    (C9_silence_sets_mute_until (fun _ => 0) 7 "silence 5".toList "silence 5".toList 5 {}
      (by decide) (by decide) (by decide) (by decide)).1, by decide, by decide⟩

/-! ## C10: `startConnection()` is idempotent -/

/-- Claim C10 as stated fails for a start in `CONN_CONNECTING`: calling `startConnection()`
twice there issues no `WiFi.begin` call, not exactly one. -/
theorem C10_twice_from_connecting_issues_none :
    (startConnection 20 (startConnection 10 { _state := CONN_CONNECTING })).wifiBeginCalls
        = ({ _state := CONN_CONNECTING } : NetworkManager).wifiBeginCalls ∧
      ¬ ((startConnection 20 (startConnection 10 { _state := CONN_CONNECTING })).wifiBeginCalls
        = ({ _state := CONN_CONNECTING } : NetworkManager).wifiBeginCalls + 1) := by
  decide

/-- Claim C10, amended: in a state whose cached state is `CONN_CONNECTING`,
`startConnection()` issues no `WiFi.begin` and changes no field; calling it twice from any
state ends in the same state as calling it once, and issues exactly one `WiFi.begin` when
the cached state was not `CONN_CONNECTING` and none when it was. -/
theorem C10_startConnection_idempotent (s : NetworkManager) (t1 t2 : Nat) :
    startConnection t1 { s with _state := CONN_CONNECTING } = { s with _state := CONN_CONNECTING } ∧
      startConnection t2 (startConnection t1 s) = startConnection t1 s ∧
      (startConnection t2 (startConnection t1 s)).wifiBeginCalls
        = s.wifiBeginCalls + (if s._state = CONN_CONNECTING then 0 else 1) := by
  obtain ⟨la, cs, st, wc, n⟩ := s
  cases st <;> simp [startConnection]

/-! ## C11: link drop -/

/-- Claim C11 as stated fails: from the initial state one `update()` with the link up
gives `CONN_CONNECTED`; an `update()` with the link down at time 40000 then leaves the
cached state `CONN_CONNECTING`, not `CONN_DISCONNECTED`, because more than the reconnect
interval has passed since `_lastAttemptTime = 0` and the same call goes on to
`startConnection()`. -/
theorem C11_drop_goes_straight_to_connecting :
    (runUpdates [(true, 0)] initialNetworkManager)._state = CONN_CONNECTED ∧
      (update false 40000 (runUpdates [(true, 0)] initialNetworkManager))._state
        = CONN_CONNECTING ∧
      ¬ ((update false 40000 (runUpdates [(true, 0)] initialNetworkManager))._state
        = CONN_DISCONNECTED) := by
  decide

/-- Claim C11, amended: for every current time and every state whose cached state is
`CONN_CONNECTED`, an `update()` with the link down sets `_wasConnected` and leaves the
cached state `CONN_DISCONNECTED` when `(now − _lastAttemptTime) mod 2^32` is at most the
reconnect interval, and `CONN_CONNECTING` (one `WiFi.begin` issued in the same call)
when it is larger. -/
theorem C11_link_drop (s : NetworkManager) (now : Nat) (hst : s._state = CONN_CONNECTED) :
    (update false now s)._wasConnected = true ∧
      (update false now s)._state
        = (if usub now s._lastAttemptTime > _reconnectInterval then CONN_CONNECTING
            else CONN_DISCONNECTED) ∧
      (update false now s).wifiBeginCalls
        = s.wifiBeginCalls + (if usub now s._lastAttemptTime > _reconnectInterval then 1 else 0) := by
  obtain ⟨la, cs, st, wc, n⟩ := s
  simp only at hst
  subst hst
  by_cases h : usub now la > _reconnectInterval <;> simp [update, startConnection, h]

/-- Claim C11, an instance: a drop at time 6000 with `_lastAttemptTime = 5000`. -/
theorem C11_link_drop_witness :
    ({ _state := CONN_CONNECTED, _lastAttemptTime := 5000 } : NetworkManager)._state
        = CONN_CONNECTED ∧
      (update false 6000 { _state := CONN_CONNECTED, _lastAttemptTime := 5000 })._wasConnected
        = true ∧
      (update false 6000 { _state := CONN_CONNECTED, _lastAttemptTime := 5000 })._state
        = CONN_DISCONNECTED :=
  ⟨rfl, (C11_link_drop { _state := CONN_CONNECTED, _lastAttemptTime := 5000 } 6000 rfl).1,
    by decide⟩

/-! ## C12: connect timeout -/

/-- An `update()` that ends in `CONN_CONNECTION_FAILED` either started there or timed out
a pending attempt with the link down. -/
theorem update_enters_failed (linkUp : Bool) (now : Nat) (s : NetworkManager)
    (h : (update linkUp now s)._state = CONN_CONNECTION_FAILED) :
    s._state = CONN_CONNECTION_FAILED ∨
      (linkUp = false ∧ s._state = CONN_CONNECTING ∧
        usub now s._connectionStartTime > _connectionTimeout) := by
  obtain ⟨la, cs, st, wc, n⟩ := s
  cases linkUp <;> cases st <;> simp [update, startConnection] at h ⊢ <;>
    split_ifs at h <;> simp_all

/-- Claim C12: with the cached state `CONN_CONNECTING` and the link down, `update()` moves
the state to `CONN_CONNECTION_FAILED` and sets `_lastAttemptTime = now` if and only if
`(now − _connectionStartTime) mod 2^32` exceeds the connection timeout (10000 ms); in
that case nothing else changes, and otherwise the whole state (in particular
`CONN_CONNECTING` and `_lastAttemptTime`) is unchanged.  No other call enters
`CONN_CONNECTION_FAILED`: an `update()` from another state reaches it only through this
timeout, and `startConnection()`, `begin()` and `justConnected()` never do. -/
theorem C12_connect_timeout (s : NetworkManager) (now : Nat) (hst : s._state = CONN_CONNECTING) :
    (((update false now s)._state = CONN_CONNECTION_FAILED ∧
        (update false now s)._lastAttemptTime = now) ↔
        usub now s._connectionStartTime > _connectionTimeout) ∧
      (usub now s._connectionStartTime > _connectionTimeout →
        update false now s = { s with _state := CONN_CONNECTION_FAILED, _lastAttemptTime := now }) ∧
      (¬ usub now s._connectionStartTime > _connectionTimeout → update false now s = s) ∧
      (∀ (linkUp : Bool) (t : Nat) (s0 : NetworkManager),
        s0._state ≠ CONN_CONNECTION_FAILED →
          ((update linkUp t s0)._state = CONN_CONNECTION_FAILED →
            linkUp = false ∧ s0._state = CONN_CONNECTING ∧
              usub t s0._connectionStartTime > _connectionTimeout) ∧
          (startConnection t s0)._state ≠ CONN_CONNECTION_FAILED ∧
          (begin s0)._state ≠ CONN_CONNECTION_FAILED ∧
          (justConnected s0).2._state ≠ CONN_CONNECTION_FAILED) := by
  obtain ⟨la, cs, st, wc, n⟩ := s
  simp only at hst
  subst hst
  have hself : ¬ usub now now > _reconnectInterval := by
    unfold usub _reconnectInterval; omega
  refine ⟨?_, ?_, ?_, ?_⟩
  · by_cases h : usub now cs > _connectionTimeout <;> simp [update, startConnection, h, hself]
  · intro h; simp [update, startConnection, h, hself]
  · intro h; simp [update, startConnection, h]
  · intro linkUp t s0 hne
    refine ⟨fun h => ?_, ?_, ?_, ?_⟩
    · rcases update_enters_failed linkUp t s0 h with h1 | h1
      · exact absurd h1 hne
      · exact h1
    · unfold startConnection; split_ifs <;> simp_all
    · simp [begin]
    · unfold justConnected; split_ifs <;> simp_all

/-- Claim C12, an instance: an attempt started at 1000 ms times out at 12000 ms. -/
theorem C12_connect_timeout_witness :
    ({ _state := CONN_CONNECTING, _connectionStartTime := 1000 } : NetworkManager)._state
        = CONN_CONNECTING ∧
      usub 12000 1000 > _connectionTimeout ∧
      update false 12000 { _state := CONN_CONNECTING, _connectionStartTime := 1000 }
        = { _state := CONN_CONNECTION_FAILED, _connectionStartTime := 1000,
            _lastAttemptTime := 12000 } ∧
      update false 11000 { _state := CONN_CONNECTING, _connectionStartTime := 1000 }
        = { _state := CONN_CONNECTING, _connectionStartTime := 1000 } :=
  ⟨rfl, by decide,
    (C12_connect_timeout { _state := CONN_CONNECTING, _connectionStartTime := 1000 } 12000
      rfl).2.1 (by decide),
    by decide⟩

/-! ## C13 and C18: when the alarm sounds, and the input span of `map` -/

/-- With the buzzer disabled or the temperature at or below the threshold,
`playBuzzerAlarm` calls `noTone` and nothing else. -/
theorem playBuzzerAlarm_stop (g : Globals) (temperature threshold : ℚ)
    (h : g.buzzerEnabled = false ∨ temperature ≤ threshold) :
    playBuzzerAlarm g temperature threshold = some BuzzerCall.noTone := by
  unfold playBuzzerAlarm
  rw [if_neg]
  rintro ⟨h1, h2⟩
  rcases h with h | h
  · rw [h] at h1; exact absurd h1 (by decide)
  · exact absurd h2 (not_lt.mpr h)

/-- With the buzzer enabled and the temperature above the threshold, `playBuzzerAlarm`
calls `tone`, provided the lower end of the mapped domain does not truncate to 100. -/
theorem playBuzzerAlarm_tone (g : Globals) (temperature threshold : ℚ)
    (hen : g.buzzerEnabled = true) (hgt : temperature > threshold)
    (hspan : toLong (threshold + 5) ≠ 100) :
    ∃ f : Int, playBuzzerAlarm g temperature threshold = some (BuzzerCall.tone f) := by
  unfold playBuzzerAlarm map
  rw [if_pos ⟨hen, hgt⟩, if_neg (by omega)]
  exact ⟨_, rfl⟩

/-- Claim C13, evaluated on the code: with the buzzer enabled, threshold 95 and reading
96 (above the threshold), `playBuzzerAlarm` makes no transducer call, because `map`
divides by `100 − trunc(95 + 5) = 0`; the stop conditions behave as claimed (reading 95,
or the buzzer disabled, gives `noTone`). -/
theorem C13_no_tone_at_threshold_95 :
    ({ thresholdTemp := 95 } : Globals).buzzerEnabled = true ∧ (96 : ℚ) > 95 ∧
      playBuzzerAlarm { thresholdTemp := 95 } 96 95 = none ∧
      playBuzzerAlarm { thresholdTemp := 95 } 95 95 = some BuzzerCall.noTone ∧
      playBuzzerAlarm { thresholdTemp := 95, buzzerEnabled := false } 96 95
        = some BuzzerCall.noTone := by
  refine ⟨rfl, by norm_num, ?_, ?_, ?_⟩ <;> norm_num [playBuzzerAlarm, toLong, map]

/-- Claim C18, evaluated on the code: after `setpoint 95` (with `toFloat` reading 95) the
threshold is 95, `trunc(95 + 5) = 100`, so the input span `100 − trunc(threshold + 5)` is
0 and `map` called for the reading 96 divides by zero; the same holds for the threshold
95.5. -/
theorem C18_zero_span_at_threshold_95 :
    (serialHandler (fun _ => 95) 0 (some "setpoint 95".toList) {}).1.thresholdTemp = 95 ∧
      toLong ((95 : ℚ) + 5) = 100 ∧
      100 - toLong ((95 : ℚ) + 5) = 0 ∧
      map (toLong 96) (toLong ((95 : ℚ) + 5)) 100 1000 2000 = none ∧
      toLong ((95.5 : ℚ) + 5) = 100 := by
  refine ⟨by decide, ?_, ?_, ?_, ?_⟩ <;> norm_num [toLong, map]

/-! ## C14: the buzzer command -/

/-- A saturated value is at least `LONG_MIN`. -/
theorem clampLong_ge (v : Int) : -(2 ^ 31) ≤ clampLong v := by
  unfold clampLong
  omega

/-- What `toInt` reads is at least `LONG_MIN`. -/
theorem toInt_ge (s : ArduinoString) : -(2 ^ 31) ≤ toInt s := by
  unfold toInt
  split
  · norm_num
  · split_ifs <;> exact clampLong_ge _

/-- Within the `long` range, only 1 converts to the unsigned value 1. -/
theorem toULong_eq_one {v : Int} (h0 : -(2 ^ 31) ≤ v) (h1 : v < 2 ^ 32) :
    toULong v = 1 ↔ v = 1 := by
  unfold toULong
  omega

/-- Claim C14 as stated fails: with the buzzer enabled, the serial lines `buzzer 2` and
`buzzer abc` are not ignored: each one disables the buzzer and issues `noTone`. -/
theorem C14_other_arguments_disable :
    (serialHandler (fun _ => 0) 0 (some "buzzer 2".toList) { buzzerEnabled := true })
        = ({ buzzerEnabled := false }, [BuzzerCall.noTone]) ∧
      (serialHandler (fun _ => 0) 0 (some "buzzer abc".toList) { buzzerEnabled := true })
        = ({ buzzerEnabled := false }, [BuzzerCall.noTone]) := by
  decide

/-- Claim C14, amended: for every serial line that trims to a command starting with
`buzzer`, with `v` the number `toInt` reads from its argument (the text from index 7 on,
0 when it is not a number): `buzzerEnabled` becomes true when `v = 1` and false for every
other `v`, and in the latter case one `noTone` is issued; no other configuration field
changes. -/
theorem C14_buzzer_command (toFloat : ArduinoString → ℚ) (now : Nat)
    (line cmd : ArduinoString) (v : Int) (g : Globals)
    (hline : trim line = cmd) (hcmd : startsWith cmd "buzzer".toList = true)
    (harg : toInt (substring cmd 7) = v) :
    serialHandler toFloat now (some line) g
      = ({ g with buzzerEnabled := decide (v = 1), otherUpdate := true },
          if v = 1 then [] else [BuzzerCall.noTone]) := by
  have hone : toULong v = 1 ↔ v = 1 :=
    toULong_eq_one (harg ▸ toInt_ge _) (harg ▸ toInt_lt _)
  obtain ⟨rest, hrest⟩ := startsWith_split "buzzer".toList cmd hcmd
  simp only [serialHandler, hline, harg]
  subst hrest
  by_cases h1 : v = 1
  · subst h1
    have h2 : toULong 1 = 1 := by decide
    simp [startsWith, List.isPrefixOf, h2]
  · have h2 : ¬ toULong v = 1 := fun h => h1 (hone.mp h)
    simp [startsWith, List.isPrefixOf, h1, h2]

/-- Claim C14, an instance: `buzzer 1` enables the buzzer, `buzzer 0` disables it and
stops the transducer. -/
theorem C14_buzzer_command_witness :
    trim "buzzer 1".toList = "buzzer 1".toList ∧
      startsWith "buzzer 1".toList "buzzer".toList = true ∧
      toInt (substring "buzzer 1".toList 7) = 1 ∧
      serialHandler (fun _ => 0) 0 (some "buzzer 1".toList) { buzzerEnabled := false }
        = ({ ({ buzzerEnabled := false } : Globals) with
              buzzerEnabled := decide ((1 : Int) = 1), otherUpdate := true },
            if (1 : Int) = 1 then [] else [BuzzerCall.noTone]) ∧
      serialHandler (fun _ => 0) 0 (some "buzzer 1".toList) { buzzerEnabled := false }
        = ({ buzzerEnabled := true }, []) ∧
      serialHandler (fun _ => 0) 0 (some "buzzer 0".toList) { buzzerEnabled := true }
        = ({ buzzerEnabled := false }, [BuzzerCall.noTone]) :=
  ⟨by decide, by decide, by decide,
    C14_buzzer_command (fun _ => 0) 0 "buzzer 1".toList "buzzer 1".toList 1
      { buzzerEnabled := false } (by decide) (by decide) (by decide),
    by decide, by decide⟩

/-! ## C15: unrecognized commands -/

/-- Claim C15: a serial line whose trimmed form is neither `log` nor `normal` and starts
with none of `interval`, `oled`, `setpoint`, `buzzer`, `silence` (be it `reset` or
anything else) only sets the display flag `otherUpdate`: `sendInterval`, `thresholdTemp`,
`buzzerEnabled`, `buzzerSilenceUntil`, `outputMode` and `mainDisplayUpdateInterval` are
unchanged and no transducer call is issued.  A broker message on a topic other than
`sensor/interval`, `sensor/setpoint`, `sensor/buzzer` only records the download time and
sets `otherUpdate`, and issues no transducer call. -/
theorem C15_unrecognized_ignored (toFloat : ArduinoString → ℚ) (now : Nat)
    (line cmd topic message : ArduinoString) (g : Globals)
    (hline : trim line = cmd)
    (hlog : cmd ≠ "log".toList) (hnormal : cmd ≠ "normal".toList)
    (hinterval : startsWith cmd "interval".toList = false)
    (holed : startsWith cmd "oled".toList = false)
    (hsetpoint : startsWith cmd "setpoint".toList = false)
    (hbuzzer : startsWith cmd "buzzer".toList = false)
    (hsilence : startsWith cmd "silence".toList = false)
    (ht1 : topic ≠ "sensor/interval".toList) (ht2 : topic ≠ "sensor/setpoint".toList)
    (ht3 : topic ≠ "sensor/buzzer".toList) :
    serialHandler toFloat now (some line) g = ({ g with otherUpdate := true }, []) ∧
      mqttCallback toFloat now topic message g
        = ({ g with lastMqttDownload := now, otherUpdate := true }, []) := by
  constructor
  · simp only [serialHandler, hline, if_neg hlog, if_neg hnormal, hinterval, holed, hsetpoint,
      hbuzzer, hsilence, Bool.false_eq_true, if_false, ite_self]
  · simp only [mqttCallback, if_neg ht1, if_neg ht2, if_neg ht3]

/-- Claim C15, an instance: the serial line `hello` and a broker message on
`sensor/other`. -/
theorem C15_unrecognized_ignored_witness :
    trim "hello".toList = "hello".toList ∧
      serialHandler (fun _ => 0) 9 (some "hello".toList) { otherUpdate := false }
        = ({ otherUpdate := true }, []) ∧
      mqttCallback (fun _ => 0) 9 "sensor/other".toList "on".toList { otherUpdate := false }
        = ({ lastMqttDownload := 9, otherUpdate := true }, []) :=
  ⟨by decide,
    (C15_unrecognized_ignored (fun _ => 0) 9 "hello".toList "hello".toList
      "sensor/other".toList "on".toList { otherUpdate := false } (by decide) (by decide)
      (by decide) (by decide) (by decide) (by decide) (by decide) (by decide) (by decide)
      (by decide) (by decide)).1,
    (C15_unrecognized_ignored (fun _ => 0) 9 "hello".toList "hello".toList
      "sensor/other".toList "on".toList { otherUpdate := false } (by decide) (by decide)
      (by decide) (by decide) (by decide) (by decide) (by decide) (by decide) (by decide)
      (by decide) (by decide)).2⟩

/-! ## C16: session fast path -/

/-- Claim C16: with the link up and the session established, `mqttReconnect(maxAttempts)`
returns true, issues no connect attempt, resets the attempt counter to 0 and leaves the
last-attempt timestamp unchanged, for every `maxAttempts` and every prior statics. -/
theorem C16_session_fast_path (maxAttempts : Int) (connectOk : Bool) (now : Nat)
    (s : MqttStatics) :
    mqttReconnect maxAttempts true true connectOk now s
      = { ret := true, connectCalls := 0,
          statics := { attempts := 0, lastAttemptTime := s.lastAttemptTime } } := by
  simp [mqttReconnect]

/-! ## C17: session attempt rate limit -/

/-- A call that issues a connect had the link up, the session down and the interval gate
open, and stamps the last-attempt time. -/
theorem mqttReconnect_connect_gate (N : Int) (linkUp sessionUp ok : Bool) (now : Nat)
    (s : MqttStatics) (h : (mqttReconnect N linkUp sessionUp ok now s).connectCalls = 1) :
    linkUp = true ∧ sessionUp = false ∧ usub now s.lastAttemptTime > attemptInterval ∧
      (mqttReconnect N linkUp sessionUp ok now s).statics.lastAttemptTime = now := by
  unfold mqttReconnect at h ⊢
  cases linkUp <;> cases sessionUp <;> simp at h ⊢
  split_ifs at h ⊢ <;> simp_all

/-- A call leaves the last-attempt time as it was or sets it to the current time. -/
theorem mqttReconnect_lastAttemptTime (N : Int) (linkUp sessionUp ok : Bool) (now : Nat)
    (s : MqttStatics) :
    (mqttReconnect N linkUp sessionUp ok now s).statics.lastAttemptTime = s.lastAttemptTime ∨
      (mqttReconnect N linkUp sessionUp ok now s).statics.lastAttemptTime = now := by
  unfold mqttReconnect
  cases linkUp <;> cases sessionUp <;> simp
  split_ifs <;> simp

/-- Without wrap the unsigned difference is the plain difference. -/
theorem usub_of_le {a b : Nat} (hba : b ≤ a) (ha : a < 2 ^ 32) : usub a b = a - b := by
  unfold usub
  omega

/-- Every connect issued by later calls comes more than the attempt interval after any
time that is not past the stored last-attempt time. -/
theorem attemptTimes_after (N : Int) :
    ∀ (calls : List ReconnectCall) (s : MqttStatics) (t0 : Nat),
      t0 ≤ s.lastAttemptTime →
      (∀ c ∈ calls, s.lastAttemptTime ≤ c.now ∧ c.now < 2 ^ 32) →
      List.Pairwise (fun a b : ReconnectCall => a.now ≤ b.now) calls →
      ∀ b ∈ attemptTimes N calls s, t0 + attemptInterval < b := by
  intro calls
  induction calls with
  | nil => intro s t0 _ _ _ b hb; simp [attemptTimes] at hb
  | cons c rest ih =>
    intro s t0 ht0 hall hsorted b hb
    obtain ⟨hc, hrestAll⟩ := List.forall_mem_cons.mp hall
    obtain ⟨hcle, hrestSorted⟩ := List.pairwise_cons.mp hsorted
    have hnext : ∀ d ∈ rest,
        (mqttReconnect N c.linkUp c.sessionUp c.connectOk c.now s).statics.lastAttemptTime ≤ d.now
          ∧ d.now < 2 ^ 32 := by
      intro d hd
      refine ⟨?_, (hrestAll d hd).2⟩
      rcases mqttReconnect_lastAttemptTime N c.linkUp c.sessionUp c.connectOk c.now s with h | h
      · rw [h]; exact (hrestAll d hd).1
      · rw [h]; exact hcle d hd
    have hlow : t0 ≤
        (mqttReconnect N c.linkUp c.sessionUp c.connectOk c.now s).statics.lastAttemptTime := by
      rcases mqttReconnect_lastAttemptTime N c.linkUp c.sessionUp c.connectOk c.now s with h | h
      · rw [h]; exact ht0
      · rw [h]; exact le_trans ht0 hc.1
    have htail := ih _ t0 hlow hnext hrestSorted
    simp only [attemptTimes] at hb
    split_ifs at hb with hcall
    · rcases List.mem_cons.mp hb with hb | hb
      · have hg := (mqttReconnect_connect_gate N _ _ _ _ _ hcall).2.2.1
        rw [usub_of_le hc.1 hc.2] at hg
        subst hb
        omega
      · exact htail b hb
    · exact htail b hb

/-- Along calls at non-decreasing times below `2 ^ 32`, connects are pairwise more than
the attempt interval apart. -/
theorem attemptTimes_pairwise (N : Int) :
    ∀ (calls : List ReconnectCall) (s : MqttStatics),
      (∀ c ∈ calls, c.now < 2 ^ 32) →
      List.Pairwise (fun a b : ReconnectCall => a.now ≤ b.now) calls →
      List.Pairwise (fun a b : Nat => a + attemptInterval < b) (attemptTimes N calls s) := by
  intro calls
  induction calls with
  | nil => intro s _ _; simp [attemptTimes]
  | cons c rest ih =>
    intro s hall hsorted
    obtain ⟨hc, hrestAll⟩ := List.forall_mem_cons.mp hall
    obtain ⟨hcle, hrestSorted⟩ := List.pairwise_cons.mp hsorted
    have htail := ih (mqttReconnect N c.linkUp c.sessionUp c.connectOk c.now s).statics
      hrestAll hrestSorted
    simp only [attemptTimes]
    split_ifs with hcall
    · refine List.pairwise_cons.mpr ⟨?_, htail⟩
      have hlast := (mqttReconnect_connect_gate N _ _ _ _ _ hcall).2.2.2
      refine attemptTimes_after N rest _ c.now (le_of_eq hlast.symm) ?_ hrestSorted
      intro d hd
      rw [hlast]
      exact ⟨hcle d hd, hrestAll d hd⟩
    · exact htail

/-- Claim C17: with the link up and the session down, `mqttReconnect` issues a connect (at
most one per call) only if `(now − lastAttemptTime) mod 2^32 > attemptInterval` (1000 ms);
every call that passes this gate sets `lastAttemptTime = now`; a call that does not pass
it returns false and changes neither the counter nor `lastAttemptTime`.  Hence in any
sequence of calls at non-decreasing times below `2^32` (no wrap of `millis()`), whatever
the link and session status at each call, any two connect attempts are more than 1000 ms
apart. -/
theorem C17_attempt_rate_limit (N : Int) (calls : List ReconnectCall) (s : MqttStatics)
    (hrange : ∀ c ∈ calls, c.now < 2 ^ 32)
    (hsorted : List.Pairwise (fun a b : ReconnectCall => a.now ≤ b.now) calls) :
    (∀ (ok : Bool) (now : Nat) (s0 : MqttStatics),
      ((mqttReconnect N true false ok now s0).connectCalls = 1 →
        usub now s0.lastAttemptTime > attemptInterval) ∧
      (mqttReconnect N true false ok now s0).connectCalls ≤ 1 ∧
      (usub now s0.lastAttemptTime > attemptInterval →
        (mqttReconnect N true false ok now s0).statics.lastAttemptTime = now) ∧
      (¬ usub now s0.lastAttemptTime > attemptInterval →
        mqttReconnect N true false ok now s0
          = { ret := false, connectCalls := 0, statics := s0 })) ∧
    List.Pairwise (fun a b : Nat => a + attemptInterval < b) (attemptTimes N calls s) := by
  refine ⟨?_, attemptTimes_pairwise N calls s hrange hsorted⟩
  intro ok now s0
  refine ⟨fun h => (mqttReconnect_connect_gate N true false ok now s0 h).2.2.1, ?_, ?_, ?_⟩
  · unfold mqttReconnect; simp; split_ifs <;> simp
  · intro hg; unfold mqttReconnect; simp [hg]; split_ifs <;> simp
  · intro hg; unfold mqttReconnect; simp [hg]

/-- Claim C17, an instance: calls at 2000, 2500 and 4000 ms issue connects at 2000 and
4000 ms only. -/
theorem C17_attempt_rate_limit_witness :
    (∀ c ∈ [(⟨true, false, false, 2000⟩ : ReconnectCall), ⟨true, false, false, 2500⟩,
        ⟨true, false, true, 4000⟩], c.now < 2 ^ 32) ∧
      attemptTimes 3 [⟨true, false, false, 2000⟩, ⟨true, false, false, 2500⟩,
        ⟨true, false, true, 4000⟩] {} = [2000, 4000] ∧
      List.Pairwise (fun a b : Nat => a + attemptInterval < b)
        (attemptTimes 3 [⟨true, false, false, 2000⟩, ⟨true, false, false, 2500⟩,
          ⟨true, false, true, 4000⟩] {}) :=
  ⟨by decide, by decide,
    (C17_attempt_rate_limit 3 [⟨true, false, false, 2000⟩, ⟨true, false, false, 2500⟩,
      ⟨true, false, true, 4000⟩] {} (by decide) (by decide)).2⟩

end TempSensor
